import Mathlib

set_option maxRecDepth 8192

/-!
A shallow embedding of the public chain-identity API of the `alloy-rs/chains`
crate (files `src/chain.rs` and `src/named.rs`), together with theorems that
settle the specification claims about it.  Machine integers (`u64`) are
modelled as `Nat` with explicit `< 2 ^ 64` bounds where the domain matters;
fallible operations return `Option`.
-/

namespace AlloyChains

/-- The `NamedChain` enum of `src/named.rs` (`#[repr(u64)]`), with its 175
variants in declaration order. -/
inductive NamedChain where
  | Mainnet
  | Morden
  | Ropsten
  | Rinkeby
  | Goerli
  | Kovan
  | Holesky
  | Hoodi
  | Sepolia
  | Odyssey
  | Optimism
  | OptimismKovan
  | OptimismGoerli
  | OptimismSepolia
  | Bob
  | BobSepolia
  | Arbitrum
  | ArbitrumTestnet
  | ArbitrumGoerli
  | ArbitrumSepolia
  | ArbitrumNova
  | Cronos
  | CronosTestnet
  | Rsk
  | RskTestnet
  | TelosEvm
  | TelosEvmTestnet
  | Crab
  | Darwinia
  | Koi
  | BinanceSmartChain
  | BinanceSmartChainTestnet
  | Poa
  | Sokol
  | Scroll
  | ScrollSepolia
  | Metis
  | CfxTestnet
  | Cfx
  | Gnosis
  | Polygon
  | PolygonAmoy
  | Fantom
  | FantomTestnet
  | Moonbeam
  | MoonbeamDev
  | Moonriver
  | Moonbase
  | Dev
  | AnvilHardhat
  | GravityAlphaMainnet
  | GravityAlphaTestnetSepolia
  | Evmos
  | EvmosTestnet
  | Plasma
  | Chiado
  | Oasis
  | Emerald
  | EmeraldTestnet
  | FilecoinMainnet
  | FilecoinCalibrationTestnet
  | Avalanche
  | AvalancheFuji
  | Celo
  | CeloSepolia
  | Aurora
  | AuroraTestnet
  | Canto
  | CantoTestnet
  | Boba
  | Base
  | BaseGoerli
  | BaseSepolia
  | Syndr
  | SyndrSepolia
  | Shimmer
  | Ink
  | InkSepolia
  | Fraxtal
  | FraxtalTestnet
  | Blast
  | BlastSepolia
  | Linea
  | LineaGoerli
  | LineaSepolia
  | ZkSync
  | ZkSyncTestnet
  | Mantle
  | MantleSepolia
  | Xai
  | XaiSepolia
  | HappychainTestnet
  | Viction
  | Zora
  | ZoraSepolia
  | Pgn
  | PgnSepolia
  | Mode
  | ModeSepolia
  | Elastos
  | Etherlink
  | EtherlinkTestnet
  | Degen
  | OpBNBMainnet
  | OpBNBTestnet
  | Ronin
  | RoninTestnet
  | Taiko
  | TaikoHekla
  | AutonomysNovaTestnet
  | Flare
  | FlareCoston2
  | Acala
  | AcalaMandalaTestnet
  | AcalaTestnet
  | Karura
  | KaruraTestnet
  | Pulsechain
  | PulsechainTestnet
  | Cannon
  | Immutable
  | ImmutableTestnet
  | Soneium
  | SoneiumMinatoTestnet
  | World
  | WorldSepolia
  | Iotex
  | Core
  | Merlin
  | Bitlayer
  | Vana
  | Zeta
  | Kaia
  | Story
  | Sei
  | SeiTestnet
  | StableMainnet
  | StableTestnet
  | Unichain
  | UnichainSepolia
  | SignetPecorino
  | ApeChain
  | Curtis
  | Sonic
  | SonicTestnet
  | Treasure
  | TreasureTopaz
  | BerachainBepolia
  | Berachain
  | SuperpositionTestnet
  | Superposition
  | Monad
  | MonadTestnet
  | Hyperliquid
  | Abstract
  | AbstractTestnet
  | Corn
  | CornTestnet
  | Sophon
  | SophonTestnet
  | PolkadotTestnet
  | Lens
  | LensTestnet
  | Injective
  | InjectiveTestnet
  | Katana
  | Lisk
  | Fuse
  | FluentDevnet
  | FluentTestnet
  | SkaleBase
  | SkaleBaseTestnet
  | MemeCore
  | Formicarium
  | Insectarium
deriving DecidableEq

namespace NamedChain

/-- The `u64` discriminant of each variant, exactly the `= <n>` values of the
`NamedChain` enum declaration (`chain as u64`). -/
def toId : NamedChain → Nat
  | Mainnet => 1
  | Morden => 2
  | Ropsten => 3
  | Rinkeby => 4
  | Goerli => 5
  | Kovan => 42
  | Holesky => 17000
  | Hoodi => 560048
  | Sepolia => 11155111
  | Odyssey => 911867
  | Optimism => 10
  | OptimismKovan => 69
  | OptimismGoerli => 420
  | OptimismSepolia => 11155420
  | Bob => 60808
  | BobSepolia => 808813
  | Arbitrum => 42161
  | ArbitrumTestnet => 421611
  | ArbitrumGoerli => 421613
  | ArbitrumSepolia => 421614
  | ArbitrumNova => 42170
  | Cronos => 25
  | CronosTestnet => 338
  | Rsk => 30
  | RskTestnet => 31
  | TelosEvm => 40
  | TelosEvmTestnet => 41
  | Crab => 44
  | Darwinia => 46
  | Koi => 701
  | BinanceSmartChain => 56
  | BinanceSmartChainTestnet => 97
  | Poa => 99
  | Sokol => 77
  | Scroll => 534352
  | ScrollSepolia => 534351
  | Metis => 1088
  | CfxTestnet => 71
  | Cfx => 1030
  | Gnosis => 100
  | Polygon => 137
  | PolygonAmoy => 80002
  | Fantom => 250
  | FantomTestnet => 4002
  | Moonbeam => 1284
  | MoonbeamDev => 1281
  | Moonriver => 1285
  | Moonbase => 1287
  | Dev => 1337
  | AnvilHardhat => 31337
  | GravityAlphaMainnet => 1625
  | GravityAlphaTestnetSepolia => 13505
  | Evmos => 9001
  | EvmosTestnet => 9000
  | Plasma => 9745
  | Chiado => 10200
  | Oasis => 26863
  | Emerald => 42262
  | EmeraldTestnet => 42261
  | FilecoinMainnet => 314
  | FilecoinCalibrationTestnet => 314159
  | Avalanche => 43114
  | AvalancheFuji => 43113
  | Celo => 42220
  | CeloSepolia => 11142220
  | Aurora => 1313161554
  | AuroraTestnet => 1313161555
  | Canto => 7700
  | CantoTestnet => 740
  | Boba => 288
  | Base => 8453
  | BaseGoerli => 84531
  | BaseSepolia => 84532
  | Syndr => 404
  | SyndrSepolia => 444444
  | Shimmer => 148
  | Ink => 57073
  | InkSepolia => 763373
  | Fraxtal => 252
  | FraxtalTestnet => 2522
  | Blast => 81457
  | BlastSepolia => 168587773
  | Linea => 59144
  | LineaGoerli => 59140
  | LineaSepolia => 59141
  | ZkSync => 324
  | ZkSyncTestnet => 300
  | Mantle => 5000
  | MantleSepolia => 5003
  | Xai => 660279
  | XaiSepolia => 37714555429
  | HappychainTestnet => 216
  | Viction => 88
  | Zora => 7777777
  | ZoraSepolia => 999999999
  | Pgn => 424
  | PgnSepolia => 58008
  | Mode => 34443
  | ModeSepolia => 919
  | Elastos => 20
  | Etherlink => 42793
  | EtherlinkTestnet => 128123
  | Degen => 666666666
  | OpBNBMainnet => 204
  | OpBNBTestnet => 5611
  | Ronin => 2020
  | RoninTestnet => 2021
  | Taiko => 167000
  | TaikoHekla => 167009
  | AutonomysNovaTestnet => 490000
  | Flare => 14
  | FlareCoston2 => 114
  | Acala => 787
  | AcalaMandalaTestnet => 595
  | AcalaTestnet => 597
  | Karura => 686
  | KaruraTestnet => 596
  | Pulsechain => 369
  | PulsechainTestnet => 943
  | Cannon => 13370
  | Immutable => 13371
  | ImmutableTestnet => 13473
  | Soneium => 1868
  | SoneiumMinatoTestnet => 1946
  | World => 480
  | WorldSepolia => 4801
  | Iotex => 4689
  | Core => 1116
  | Merlin => 4200
  | Bitlayer => 200901
  | Vana => 1480
  | Zeta => 7000
  | Kaia => 8217
  | Story => 1514
  | Sei => 1329
  | SeiTestnet => 1328
  | StableMainnet => 988
  | StableTestnet => 2201
  | Unichain => 130
  | UnichainSepolia => 1301
  | SignetPecorino => 14174
  | ApeChain => 33139
  | Curtis => 33111
  | Sonic => 146
  | SonicTestnet => 14601
  | Treasure => 61166
  | TreasureTopaz => 978658
  | BerachainBepolia => 80069
  | Berachain => 80094
  | SuperpositionTestnet => 98985
  | Superposition => 55244
  | Monad => 143
  | MonadTestnet => 10143
  | Hyperliquid => 999
  | Abstract => 2741
  | AbstractTestnet => 11124
  | Corn => 21000000
  | CornTestnet => 21000001
  | Sophon => 50104
  | SophonTestnet => 531050104
  | PolkadotTestnet => 420420417
  | Lens => 232
  | LensTestnet => 37111
  | Injective => 1776
  | InjectiveTestnet => 1439
  | Katana => 747474
  | Lisk => 1135
  | Fuse => 122
  | FluentDevnet => 20993
  | FluentTestnet => 20994
  | SkaleBase => 1562508942
  | SkaleBaseTestnet => 324705682
  | MemeCore => 4352
  | Formicarium => 43521
  | Insectarium => 43522

/-- All variants, in declaration order. -/
def variants : List NamedChain :=
  [Mainnet, Morden, Ropsten, Rinkeby, Goerli,
   Kovan, Holesky, Hoodi, Sepolia, Odyssey,
   Optimism, OptimismKovan, OptimismGoerli, OptimismSepolia, Bob,
   BobSepolia, Arbitrum, ArbitrumTestnet, ArbitrumGoerli, ArbitrumSepolia,
   ArbitrumNova, Cronos, CronosTestnet, Rsk, RskTestnet,
   TelosEvm, TelosEvmTestnet, Crab, Darwinia, Koi,
   BinanceSmartChain, BinanceSmartChainTestnet, Poa, Sokol, Scroll,
   ScrollSepolia, Metis, CfxTestnet, Cfx, Gnosis,
   Polygon, PolygonAmoy, Fantom, FantomTestnet, Moonbeam,
   MoonbeamDev, Moonriver, Moonbase, Dev, AnvilHardhat,
   GravityAlphaMainnet, GravityAlphaTestnetSepolia, Evmos, EvmosTestnet, Plasma,
   Chiado, Oasis, Emerald, EmeraldTestnet, FilecoinMainnet,
   FilecoinCalibrationTestnet, Avalanche, AvalancheFuji, Celo, CeloSepolia,
   Aurora, AuroraTestnet, Canto, CantoTestnet, Boba,
   Base, BaseGoerli, BaseSepolia, Syndr, SyndrSepolia,
   Shimmer, Ink, InkSepolia, Fraxtal, FraxtalTestnet,
   Blast, BlastSepolia, Linea, LineaGoerli, LineaSepolia,
   ZkSync, ZkSyncTestnet, Mantle, MantleSepolia, Xai,
   XaiSepolia, HappychainTestnet, Viction, Zora, ZoraSepolia,
   Pgn, PgnSepolia, Mode, ModeSepolia, Elastos,
   Etherlink, EtherlinkTestnet, Degen, OpBNBMainnet, OpBNBTestnet,
   Ronin, RoninTestnet, Taiko, TaikoHekla, AutonomysNovaTestnet,
   Flare, FlareCoston2, Acala, AcalaMandalaTestnet, AcalaTestnet,
   Karura, KaruraTestnet, Pulsechain, PulsechainTestnet, Cannon,
   Immutable, ImmutableTestnet, Soneium, SoneiumMinatoTestnet, World,
   WorldSepolia, Iotex, Core, Merlin, Bitlayer,
   Vana, Zeta, Kaia, Story, Sei,
   SeiTestnet, StableMainnet, StableTestnet, Unichain, UnichainSepolia,
   SignetPecorino, ApeChain, Curtis, Sonic, SonicTestnet,
   Treasure, TreasureTopaz, BerachainBepolia, Berachain, SuperpositionTestnet,
   Superposition, Monad, MonadTestnet, Hyperliquid, Abstract,
   AbstractTestnet, Corn, CornTestnet, Sophon, SophonTestnet,
   PolkadotTestnet, Lens, LensTestnet, Injective, InjectiveTestnet,
   Katana, Lisk, Fuse, FluentDevnet, FluentTestnet,
   SkaleBase, SkaleBaseTestnet, MemeCore, Formicarium, Insectarium]

/-- The canonical display string of each variant, as produced by the
strum-derived `Display`/`IntoStaticStr` impls: the `to_string = "..."` value
when present, otherwise the `serialize = "..."` value, otherwise the
kebab-case form of the variant name (`serialize_all = "kebab-case"`). -/
def canonicalName : NamedChain → String
  | Mainnet => "mainnet"
  | Morden => "morden"
  | Ropsten => "ropsten"
  | Rinkeby => "rinkeby"
  | Goerli => "goerli"
  | Kovan => "kovan"
  | Holesky => "holesky"
  | Hoodi => "hoodi"
  | Sepolia => "sepolia"
  | Odyssey => "odyssey"
  | Optimism => "optimism"
  | OptimismKovan => "optimism-kovan"
  | OptimismGoerli => "optimism-goerli"
  | OptimismSepolia => "optimism-sepolia"
  | Bob => "bob"
  | BobSepolia => "bob-sepolia"
  | Arbitrum => "arbitrum"
  | ArbitrumTestnet => "arbitrum-testnet"
  | ArbitrumGoerli => "arbitrum-goerli"
  | ArbitrumSepolia => "arbitrum-sepolia"
  | ArbitrumNova => "arbitrum-nova"
  | Cronos => "cronos"
  | CronosTestnet => "cronos-testnet"
  | Rsk => "rsk"
  | RskTestnet => "rsk-testnet"
  | TelosEvm => "telos"
  | TelosEvmTestnet => "telos-testnet"
  | Crab => "crab"
  | Darwinia => "darwinia"
  | Koi => "koi"
  | BinanceSmartChain => "bsc"
  | BinanceSmartChainTestnet => "bsc-testnet"
  | Poa => "poa"
  | Sokol => "sokol"
  | Scroll => "scroll"
  | ScrollSepolia => "scroll-sepolia"
  | Metis => "metis"
  | CfxTestnet => "cfx-testnet"
  | Cfx => "cfx"
  | Gnosis => "xdai"
  | Polygon => "polygon"
  | PolygonAmoy => "amoy"
  | Fantom => "fantom"
  | FantomTestnet => "fantom-testnet"
  | Moonbeam => "moonbeam"
  | MoonbeamDev => "moonbeam-dev"
  | Moonriver => "moonriver"
  | Moonbase => "moonbase"
  | Dev => "dev"
  | AnvilHardhat => "anvil-hardhat"
  | GravityAlphaMainnet => "gravity-alpha-mainnet"
  | GravityAlphaTestnetSepolia => "gravity-alpha-testnet-sepolia"
  | Evmos => "evmos"
  | EvmosTestnet => "evmos-testnet"
  | Plasma => "plasma"
  | Chiado => "chiado"
  | Oasis => "oasis"
  | Emerald => "emerald"
  | EmeraldTestnet => "emerald-testnet"
  | FilecoinMainnet => "filecoin-mainnet"
  | FilecoinCalibrationTestnet => "filecoin-calibration-testnet"
  | Avalanche => "avalanche"
  | AvalancheFuji => "fuji"
  | Celo => "celo"
  | CeloSepolia => "celo-sepolia"
  | Aurora => "aurora"
  | AuroraTestnet => "aurora-testnet"
  | Canto => "canto"
  | CantoTestnet => "canto-testnet"
  | Boba => "boba"
  | Base => "base"
  | BaseGoerli => "base-goerli"
  | BaseSepolia => "base-sepolia"
  | Syndr => "syndr"
  | SyndrSepolia => "syndr-sepolia"
  | Shimmer => "shimmer"
  | Ink => "ink"
  | InkSepolia => "ink-sepolia"
  | Fraxtal => "fraxtal"
  | FraxtalTestnet => "fraxtal-testnet"
  | Blast => "blast"
  | BlastSepolia => "blast-sepolia"
  | Linea => "linea"
  | LineaGoerli => "linea-goerli"
  | LineaSepolia => "linea-sepolia"
  | ZkSync => "zksync"
  | ZkSyncTestnet => "zksync-testnet"
  | Mantle => "mantle"
  | MantleSepolia => "mantle-sepolia"
  | Xai => "xai"
  | XaiSepolia => "xai-sepolia"
  | HappychainTestnet => "happychain-testnet"
  | Viction => "viction"
  | Zora => "zora"
  | ZoraSepolia => "zora-sepolia"
  | Pgn => "pgn"
  | PgnSepolia => "pgn-sepolia"
  | Mode => "mode"
  | ModeSepolia => "mode-sepolia"
  | Elastos => "elastos"
  | Etherlink => "etherlink"
  | EtherlinkTestnet => "etherlink-testnet"
  | Degen => "degen"
  | OpBNBMainnet => "opbnb-mainnet"
  | OpBNBTestnet => "opbnb-testnet"
  | Ronin => "ronin"
  | RoninTestnet => "ronin-testnet"
  | Taiko => "taiko"
  | TaikoHekla => "taiko-hekla"
  | AutonomysNovaTestnet => "autonomys-nova-testnet"
  | Flare => "flare"
  | FlareCoston2 => "flare-coston2"
  | Acala => "acala"
  | AcalaMandalaTestnet => "acala-mandala-testnet"
  | AcalaTestnet => "acala-testnet"
  | Karura => "karura"
  | KaruraTestnet => "karura-testnet"
  | Pulsechain => "pulsechain"
  | PulsechainTestnet => "pulsechain-testnet"
  | Cannon => "cannon"
  | Immutable => "immutable"
  | ImmutableTestnet => "immutable-testnet"
  | Soneium => "soneium"
  | SoneiumMinatoTestnet => "soneium-minato-testnet"
  | World => "world"
  | WorldSepolia => "world-sepolia"
  | Iotex => "iotex"
  | Core => "core"
  | Merlin => "merlin"
  | Bitlayer => "bitlayer"
  | Vana => "vana"
  | Zeta => "zeta"
  | Kaia => "kaia"
  | Story => "story"
  | Sei => "sei"
  | SeiTestnet => "sei-testnet"
  | StableMainnet => "stable-mainnet"
  | StableTestnet => "stable-testnet"
  | Unichain => "unichain"
  | UnichainSepolia => "unichain-sepolia"
  | SignetPecorino => "signet-pecorino"
  | ApeChain => "apechain"
  | Curtis => "curtis"
  | Sonic => "sonic"
  | SonicTestnet => "sonic-testnet"
  | Treasure => "treasure"
  | TreasureTopaz => "treasure-topaz"
  | BerachainBepolia => "berachain-bepolia"
  | Berachain => "berachain"
  | SuperpositionTestnet => "superposition-testnet"
  | Superposition => "superposition"
  | Monad => "monad"
  | MonadTestnet => "monad-testnet"
  | Hyperliquid => "hyperliquid"
  | Abstract => "abstract"
  | AbstractTestnet => "abstract-testnet"
  | Corn => "corn"
  | CornTestnet => "corn-testnet"
  | Sophon => "sophon"
  | SophonTestnet => "sophon-testnet"
  | PolkadotTestnet => "polkadot-testnet"
  | Lens => "lens"
  | LensTestnet => "lens-testnet"
  | Injective => "injective"
  | InjectiveTestnet => "injective-testnet"
  | Katana => "katana"
  | Lisk => "lisk"
  | Fuse => "fuse"
  | FluentDevnet => "fluent-devnet"
  | FluentTestnet => "fluent-testnet"
  | SkaleBase => "skale-base"
  | SkaleBaseTestnet => "skale-base-testnet"
  | MemeCore => "memecore"
  | Formicarium => "formicarium"
  | Insectarium => "insectarium"

/-- The extra parse aliases of each variant: the `serialize = "..."` strum
attribute values that are accepted by `FromStr` in addition to the canonical
display string. -/
def aliases : NamedChain → List String
  | Mainnet => ["ethlive"]
  | BinanceSmartChain => ["binance-smart-chain", "bnb-smart-chain"]
  | BinanceSmartChainTestnet => ["binance-smart-chain-testnet", "bnb-smart-chain-testnet"]
  | Gnosis => ["gnosis", "gnosis-chain"]
  | PolygonAmoy => ["polygon-amoy"]
  | AnvilHardhat => ["anvil", "hardhat"]
  | AvalancheFuji => ["avalanche-fuji"]
  | Curtis => ["apechain-testnet"]
  | TreasureTopaz => ["treasure-topaz-testnet"]
  | BerachainBepolia => ["berachain-bepolia-testnet"]
  | Formicarium => ["memecore-formicarium"]
  | Insectarium => ["memecore-insectarium"]
  | _ => []

/-- The full string-to-variant parse table of the strum-derived `FromStr`
impl: for each variant, in declaration order, its canonical name followed by
its aliases.  All keys are distinct (duplicate match arms would be dead code
in the generated Rust `match`). -/
def strumTable : List (String × NamedChain) :=
  [("mainnet", Mainnet), ("ethlive", Mainnet), ("morden", Morden),
   ("ropsten", Ropsten), ("rinkeby", Rinkeby), ("goerli", Goerli),
   ("kovan", Kovan), ("holesky", Holesky), ("hoodi", Hoodi),
   ("sepolia", Sepolia), ("odyssey", Odyssey), ("optimism", Optimism),
   ("optimism-kovan", OptimismKovan), ("optimism-goerli", OptimismGoerli), ("optimism-sepolia", OptimismSepolia),
   ("bob", Bob), ("bob-sepolia", BobSepolia), ("arbitrum", Arbitrum),
   ("arbitrum-testnet", ArbitrumTestnet), ("arbitrum-goerli", ArbitrumGoerli), ("arbitrum-sepolia", ArbitrumSepolia),
   ("arbitrum-nova", ArbitrumNova), ("cronos", Cronos), ("cronos-testnet", CronosTestnet),
   ("rsk", Rsk), ("rsk-testnet", RskTestnet), ("telos", TelosEvm),
   ("telos-testnet", TelosEvmTestnet), ("crab", Crab), ("darwinia", Darwinia),
   ("koi", Koi), ("bsc", BinanceSmartChain), ("binance-smart-chain", BinanceSmartChain),
   ("bnb-smart-chain", BinanceSmartChain), ("bsc-testnet", BinanceSmartChainTestnet), ("binance-smart-chain-testnet", BinanceSmartChainTestnet),
   ("bnb-smart-chain-testnet", BinanceSmartChainTestnet), ("poa", Poa), ("sokol", Sokol),
   ("scroll", Scroll), ("scroll-sepolia", ScrollSepolia), ("metis", Metis),
   ("cfx-testnet", CfxTestnet), ("cfx", Cfx), ("xdai", Gnosis),
   ("gnosis", Gnosis), ("gnosis-chain", Gnosis), ("polygon", Polygon),
   ("amoy", PolygonAmoy), ("polygon-amoy", PolygonAmoy), ("fantom", Fantom),
   ("fantom-testnet", FantomTestnet), ("moonbeam", Moonbeam), ("moonbeam-dev", MoonbeamDev),
   ("moonriver", Moonriver), ("moonbase", Moonbase), ("dev", Dev),
   ("anvil-hardhat", AnvilHardhat), ("anvil", AnvilHardhat), ("hardhat", AnvilHardhat),
   ("gravity-alpha-mainnet", GravityAlphaMainnet), ("gravity-alpha-testnet-sepolia", GravityAlphaTestnetSepolia), ("evmos", Evmos),
   ("evmos-testnet", EvmosTestnet), ("plasma", Plasma), ("chiado", Chiado),
   ("oasis", Oasis), ("emerald", Emerald), ("emerald-testnet", EmeraldTestnet),
   ("filecoin-mainnet", FilecoinMainnet), ("filecoin-calibration-testnet", FilecoinCalibrationTestnet), ("avalanche", Avalanche),
   ("fuji", AvalancheFuji), ("avalanche-fuji", AvalancheFuji), ("celo", Celo),
   ("celo-sepolia", CeloSepolia), ("aurora", Aurora), ("aurora-testnet", AuroraTestnet),
   ("canto", Canto), ("canto-testnet", CantoTestnet), ("boba", Boba),
   ("base", Base), ("base-goerli", BaseGoerli), ("base-sepolia", BaseSepolia),
   ("syndr", Syndr), ("syndr-sepolia", SyndrSepolia), ("shimmer", Shimmer),
   ("ink", Ink), ("ink-sepolia", InkSepolia), ("fraxtal", Fraxtal),
   ("fraxtal-testnet", FraxtalTestnet), ("blast", Blast), ("blast-sepolia", BlastSepolia),
   ("linea", Linea), ("linea-goerli", LineaGoerli), ("linea-sepolia", LineaSepolia),
   ("zksync", ZkSync), ("zksync-testnet", ZkSyncTestnet), ("mantle", Mantle),
   ("mantle-sepolia", MantleSepolia), ("xai", Xai), ("xai-sepolia", XaiSepolia),
   ("happychain-testnet", HappychainTestnet), ("viction", Viction), ("zora", Zora),
   ("zora-sepolia", ZoraSepolia), ("pgn", Pgn), ("pgn-sepolia", PgnSepolia),
   ("mode", Mode), ("mode-sepolia", ModeSepolia), ("elastos", Elastos),
   ("etherlink", Etherlink), ("etherlink-testnet", EtherlinkTestnet), ("degen", Degen),
   ("opbnb-mainnet", OpBNBMainnet), ("opbnb-testnet", OpBNBTestnet), ("ronin", Ronin),
   ("ronin-testnet", RoninTestnet), ("taiko", Taiko), ("taiko-hekla", TaikoHekla),
   ("autonomys-nova-testnet", AutonomysNovaTestnet), ("flare", Flare), ("flare-coston2", FlareCoston2),
   ("acala", Acala), ("acala-mandala-testnet", AcalaMandalaTestnet), ("acala-testnet", AcalaTestnet),
   ("karura", Karura), ("karura-testnet", KaruraTestnet), ("pulsechain", Pulsechain),
   ("pulsechain-testnet", PulsechainTestnet), ("cannon", Cannon), ("immutable", Immutable),
   ("immutable-testnet", ImmutableTestnet), ("soneium", Soneium), ("soneium-minato-testnet", SoneiumMinatoTestnet),
   ("world", World), ("world-sepolia", WorldSepolia), ("iotex", Iotex),
   ("core", Core), ("merlin", Merlin), ("bitlayer", Bitlayer),
   ("vana", Vana), ("zeta", Zeta), ("kaia", Kaia),
   ("story", Story), ("sei", Sei), ("sei-testnet", SeiTestnet),
   ("stable-mainnet", StableMainnet), ("stable-testnet", StableTestnet), ("unichain", Unichain),
   ("unichain-sepolia", UnichainSepolia), ("signet-pecorino", SignetPecorino), ("apechain", ApeChain),
   ("curtis", Curtis), ("apechain-testnet", Curtis), ("sonic", Sonic),
   ("sonic-testnet", SonicTestnet), ("treasure", Treasure), ("treasure-topaz", TreasureTopaz),
   ("treasure-topaz-testnet", TreasureTopaz), ("berachain-bepolia", BerachainBepolia), ("berachain-bepolia-testnet", BerachainBepolia),
   ("berachain", Berachain), ("superposition-testnet", SuperpositionTestnet), ("superposition", Superposition),
   ("monad", Monad), ("monad-testnet", MonadTestnet), ("hyperliquid", Hyperliquid),
   ("abstract", Abstract), ("abstract-testnet", AbstractTestnet), ("corn", Corn),
   ("corn-testnet", CornTestnet), ("sophon", Sophon), ("sophon-testnet", SophonTestnet),
   ("polkadot-testnet", PolkadotTestnet), ("lens", Lens), ("lens-testnet", LensTestnet),
   ("injective", Injective), ("injective-testnet", InjectiveTestnet), ("katana", Katana),
   ("lisk", Lisk), ("fuse", Fuse), ("fluent-devnet", FluentDevnet),
   ("fluent-testnet", FluentTestnet), ("skale-base", SkaleBase), ("skale-base-testnet", SkaleBaseTestnet),
   ("memecore", MemeCore), ("formicarium", Formicarium), ("memecore-formicarium", Formicarium),
   ("insectarium", Insectarium), ("memecore-insectarium", Insectarium)]

/-- `NamedChain::from_str` (strum `EnumString`): case-sensitive lookup of the
input among the serialization strings of all variants. -/
def from_str (s : String) : Option NamedChain :=
  (strumTable.find? (fun p => p.1 == s)).map (fun p => p.2)

/-- `TryFrom<u64> for NamedChain` (num_enum `TryFromPrimitive`): the generated
code matches the input against each variant's discriminant literal; this is
the first (and, by injectivity, only) variant whose discriminant equals the
input. -/
def tryFromU64 (id : Nat) : Option NamedChain :=
  variants.find? (fun v => v.toId == id)

/-- `NamedChain::as_str` / `AsRef<str>`: the canonical display string. -/
def as_str (v : NamedChain) : String :=
  canonicalName v

/-- `NamedChain::etherscan_urls` of `src/named.rs`: the
`(api_url, browser_url)` pair for each variant, when known. -/
def etherscan_urls : NamedChain → Option (String × String)
  | Mainnet => some ("https://api.etherscan.io/v2/api?chainid=1", "https://etherscan.io")
  | Sepolia => some ("https://api.etherscan.io/v2/api?chainid=11155111", "https://sepolia.etherscan.io")
  | Holesky => some ("https://api.etherscan.io/v2/api?chainid=17000", "https://holesky.etherscan.io")
  | Hoodi => some ("https://api.etherscan.io/v2/api?chainid=560048", "https://hoodi.etherscan.io")
  | Polygon => some ("https://api.etherscan.io/v2/api?chainid=137", "https://polygonscan.com")
  | PolygonAmoy => some ("https://api.etherscan.io/v2/api?chainid=80002", "https://amoy.polygonscan.com")
  | Avalanche => some ("https://api.etherscan.io/v2/api?chainid=43114", "https://snowscan.xyz")
  | AvalancheFuji => some ("https://api.etherscan.io/v2/api?chainid=43113", "https://testnet.snowscan.xyz")
  | Optimism => some ("https://api.etherscan.io/v2/api?chainid=10", "https://optimistic.etherscan.io")
  | OptimismSepolia => some ("https://api.etherscan.io/v2/api?chainid=11155420", "https://sepolia-optimism.etherscan.io")
  | Bob => some ("https://explorer.gobob.xyz/api", "https://explorer.gobob.xyz")
  | BobSepolia => some ("https://bob-sepolia.explorer.gobob.xyz/api", "https://bob-sepolia.explorer.gobob.xyz")
  | BinanceSmartChain => some ("https://api.etherscan.io/v2/api?chainid=56", "https://bscscan.com")
  | BinanceSmartChainTestnet => some ("https://api.etherscan.io/v2/api?chainid=97", "https://testnet.bscscan.com")
  | OpBNBMainnet => some ("https://api.etherscan.io/v2/api?chainid=204", "https://opbnb.bscscan.com")
  | OpBNBTestnet => some ("https://api.etherscan.io/v2/api?chainid=5611", "https://opbnb-testnet.bscscan.com")
  | Arbitrum => some ("https://api.etherscan.io/v2/api?chainid=42161", "https://arbiscan.io")
  | ArbitrumSepolia => some ("https://api.etherscan.io/v2/api?chainid=421614", "https://sepolia.arbiscan.io")
  | ArbitrumNova => some ("https://api.etherscan.io/v2/api?chainid=42170", "https://nova.arbiscan.io")
  | GravityAlphaMainnet => some ("https://explorer.gravity.xyz/api", "https://explorer.gravity.xyz")
  | GravityAlphaTestnetSepolia => some ("https://explorer-sepolia.gravity.xyz/api", "https://explorer-sepolia.gravity.xyz")
  | HappychainTestnet => some ("https://explorer.testnet.happy.tech/api", "https://explorer.testnet.happy.tech")
  | XaiSepolia => some ("https://api.etherscan.io/v2/api?chainid=37714555429", "https://sepolia.xaiscan.io")
  | Xai => some ("https://api.etherscan.io/v2/api?chainid=660279", "https://xaiscan.io")
  | Syndr => some ("https://explorer.syndr.com/api", "https://explorer.syndr.com")
  | SyndrSepolia => some ("https://sepolia-explorer.syndr.com/api", "https://sepolia-explorer.syndr.com")
  | Cronos => some ("https://api.etherscan.io/v2/api?chainid=25", "https://cronoscan.com")
  | Moonbeam => some ("https://api.etherscan.io/v2/api?chainid=1284", "https://moonbeam.moonscan.io")
  | Moonbase => some ("https://api.etherscan.io/v2/api?chainid=1287", "https://moonbase.moonscan.io")
  | Moonriver => some ("https://api.etherscan.io/v2/api?chainid=1285", "https://moonriver.moonscan.io")
  | Gnosis => some ("https://api.etherscan.io/v2/api?chainid=100", "https://gnosisscan.io")
  | Scroll => some ("https://api.etherscan.io/v2/api?chainid=534352", "https://scrollscan.com")
  | ScrollSepolia => some ("https://api.etherscan.io/v2/api?chainid=534351", "https://sepolia.scrollscan.com")
  | Ink => some ("https://explorer.inkonchain.com/api/v2", "https://explorer.inkonchain.com")
  | InkSepolia => some ("https://explorer-sepolia.inkonchain.com/api/v2", "https://explorer-sepolia.inkonchain.com")
  | Shimmer => some ("https://explorer.evm.shimmer.network/api", "https://explorer.evm.shimmer.network")
  | Metis => some ("https://api.routescan.io/v2/network/mainnet/evm/1088/etherscan", "https://explorer.metis.io")
  | Chiado => some ("https://gnosis-chiado.blockscout.com/api", "https://gnosis-chiado.blockscout.com")
  | Plasma => some ("https://api.routescan.io/v2/network/mainnet/evm/9745/etherscan/api", "https://plasmascan.to")
  | FilecoinCalibrationTestnet => some ("https://api.calibration.node.glif.io/rpc/v1", "https://calibration.filfox.info/en")
  | Rsk => some ("https://blockscout.com/rsk/mainnet/api", "https://blockscout.com/rsk/mainnet")
  | RskTestnet => some ("https://rootstock-testnet.blockscout.com/api", "https://rootstock-testnet.blockscout.com")
  | Emerald => some ("https://explorer.emerald.oasis.dev/api", "https://explorer.emerald.oasis.dev")
  | EmeraldTestnet => some ("https://testnet.explorer.emerald.oasis.dev/api", "https://testnet.explorer.emerald.oasis.dev")
  | Aurora => some ("https://api.aurorascan.dev/api", "https://aurorascan.dev")
  | AuroraTestnet => some ("https://testnet.aurorascan.dev/api", "https://testnet.aurorascan.dev")
  | Celo => some ("https://api.etherscan.io/v2/api?chainid=42220", "https://celoscan.io")
  | CeloSepolia => some ("https://api.etherscan.io/v2/api?chainid=11142220", "https://sepolia.celoscan.io")
  | Boba => some ("https://api.bobascan.com/api", "https://bobascan.com")
  | Base => some ("https://api.etherscan.io/v2/api?chainid=8453", "https://basescan.org")
  | BaseSepolia => some ("https://api.etherscan.io/v2/api?chainid=84532", "https://sepolia.basescan.org")
  | Fraxtal => some ("https://api.etherscan.io/v2/api?chainid=252", "https://fraxscan.com")
  | FraxtalTestnet => some ("https://api.etherscan.io/v2/api?chainid=2522", "https://holesky.fraxscan.com")
  | Blast => some ("https://api.etherscan.io/v2/api?chainid=81457", "https://blastscan.io")
  | BlastSepolia => some ("https://api.etherscan.io/v2/api?chainid=168587773", "https://sepolia.blastscan.io")
  | ZkSync => some ("https://api.etherscan.io/v2/api?chainid=324", "https://era.zksync.network")
  | ZkSyncTestnet => some ("https://api.etherscan.io/v2/api?chainid=300", "https://sepolia-era.zksync.network")
  | Linea => some ("https://api.etherscan.io/v2/api?chainid=59144", "https://lineascan.build")
  | LineaSepolia => some ("https://api.etherscan.io/v2/api?chainid=59141", "https://sepolia.lineascan.build")
  | Mantle => some ("https://api.etherscan.io/v2/api?chainid=5000", "https://mantlescan.xyz")
  | MantleSepolia => some ("https://api.etherscan.io/v2/api?chainid=5003", "https://sepolia.mantlescan.xyz")
  | Viction => some ("https://www.vicscan.xyz/api", "https://www.vicscan.xyz")
  | Zora => some ("https://explorer.zora.energy/api", "https://explorer.zora.energy")
  | ZoraSepolia => some ("https://sepolia.explorer.zora.energy/api", "https://sepolia.explorer.zora.energy")
  | Mode => some ("https://explorer.mode.network/api", "https://explorer.mode.network")
  | ModeSepolia => some ("https://sepolia.explorer.mode.network/api", "https://sepolia.explorer.mode.network")
  | Elastos => some ("https://esc.elastos.io/api", "https://esc.elastos.io")
  | Etherlink => some ("https://explorer.etherlink.com/api", "https://explorer.etherlink.com")
  | EtherlinkTestnet => some ("https://testnet.explorer.etherlink.com/api", "https://testnet.explorer.etherlink.com")
  | Degen => some ("https://explorer.degen.tips/api", "https://explorer.degen.tips")
  | Ronin => some ("https://skynet-api.roninchain.com/ronin", "https://app.roninchain.com")
  | RoninTestnet => some ("https://api-gateway.skymavis.com/rpc/testnet", "https://saigon-app.roninchain.com")
  | Taiko => some ("https://api.etherscan.io/v2/api?chainid=167000", "https://taikoscan.io")
  | TaikoHekla => some ("https://api.etherscan.io/v2/api?chainid=167009", "https://hekla.taikoscan.io")
  | Flare => some ("https://flare-explorer.flare.network/api", "https://flare-explorer.flare.network")
  | FlareCoston2 => some ("https://coston2-explorer.flare.network/api", "https://coston2-explorer.flare.network")
  | Acala => some ("https://blockscout.acala.network/api", "https://blockscout.acala.network")
  | AcalaMandalaTestnet => some ("https://blockscout.mandala.aca-staging.network/api", "https://blockscout.mandala.aca-staging.network")
  | Karura => some ("https://blockscout.karura.network/api", "https://blockscout.karura.network")
  | Darwinia => some ("https://explorer.darwinia.network/api", "https://explorer.darwinia.network")
  | Crab => some ("https://crab-scan.darwinia.network/api", "https://crab-scan.darwinia.network")
  | Cfx => some ("https://evmapi.confluxscan.net/api", "https://evm.confluxscan.io")
  | CfxTestnet => some ("https://evmapi-testnet.confluxscan.net/api", "https://evmtestnet.confluxscan.io")
  | Pulsechain => some ("https://api.scan.pulsechain.com", "https://scan.pulsechain.com")
  | PulsechainTestnet => some ("https://api.scan.v4.testnet.pulsechain.com", "https://scan.v4.testnet.pulsechain.com")
  | Immutable => some ("https://explorer.immutable.com/api", "https://explorer.immutable.com")
  | ImmutableTestnet => some ("https://explorer.testnet.immutable.com/api", "https://explorer.testnet.immutable.com")
  | Soneium => some ("https://soneium.blockscout.com/api", "https://soneium.blockscout.com")
  | SoneiumMinatoTestnet => some ("https://soneium-minato.blockscout.com/api", "https://soneium-minato.blockscout.com")
  | Odyssey => some ("https://odyssey-explorer.ithaca.xyz/api", "https://odyssey-explorer.ithaca.xyz")
  | World => some ("https://api.etherscan.io/v2/api?chainid=480", "https://worldscan.org")
  | WorldSepolia => some ("https://api.etherscan.io/v2/api?chainid=4801", "https://sepolia.worldscan.org")
  | Unichain => some ("https://api.etherscan.io/v2/api?chainid=130", "https://uniscan.xyz")
  | UnichainSepolia => some ("https://api.etherscan.io/v2/api?chainid=1301", "https://sepolia.uniscan.xyz")
  | SignetPecorino => some ("https://explorer.pecorino.signet.sh/api", "https://explorer.pecorino.signet.sh")
  | Core => some ("https://openapi.coredao.org/api", "https://scan.coredao.org")
  | Merlin => some ("https://scan.merlinchain.io/api", "https://scan.merlinchain.io")
  | Bitlayer => some ("https://api.btrscan.com/scan/api", "https://www.btrscan.com")
  | Vana => some ("https://api.vanascan.io/api", "https://vanascan.io")
  | Zeta => some ("https://zetachain.blockscout.com/api", "https://zetachain.blockscout.com")
  | Kaia => some ("https://mainnet-oapi.kaiascan.io/api", "https://kaiascan.io")
  | Story => some ("https://www.storyscan.xyz/api/v2", "https://www.storyscan.xyz")
  | Sei => some ("https://api.etherscan.io/v2/api?chainid=1329", "https://seiscan.io")
  | SeiTestnet => some ("https://api.etherscan.io/v2/api?chainid=1328", "https://testnet.seiscan.io")
  | StableMainnet => some ("https://api.etherscan.io/v2/api?chainid=988", "https://stablescan.xyz")
  | StableTestnet => some ("https://api.etherscan.io/v2/api?chainid=2201", "https://testnet.stablescan.xyz")
  | ApeChain => some ("https://api.etherscan.io/v2/api?chainid=33139", "https://apescan.io")
  | Curtis => some ("https://api.etherscan.io/v2/api?chainid=33111", "https://curtis.apescan.io")
  | Sonic => some ("https://api.etherscan.io/v2/api?chainid=146", "https://sonicscan.org")
  | SonicTestnet => some ("https://api.etherscan.io/v2/api?chainid=14601", "https://testnet.sonicscan.org")
  | BerachainBepolia => some ("https://api.etherscan.io/v2/api?chainid=80069", "https://testnet.berascan.com")
  | Berachain => some ("https://api.etherscan.io/v2/api?chainid=80094", "https://berascan.com")
  | SuperpositionTestnet => some ("https://testnet-explorer.superposition.so/api", "https://testnet-explorer.superposition.so")
  | Superposition => some ("https://explorer.superposition.so/api", "https://explorer.superposition.so")
  | Monad => some ("https://api.etherscan.io/v2/api?chainid=143", "https://monadscan.com")
  | MonadTestnet => some ("https://api.etherscan.io/v2/api?chainid=10143", "https://testnet.monadscan.com")
  | TelosEvm => some ("https://api.teloscan.io/api", "https://teloscan.io")
  | TelosEvmTestnet => some ("https://api.testnet.teloscan.io/api", "https://testnet.teloscan.io")
  | Hyperliquid => some ("https://api.etherscan.io/v2/api?chainid=999", "https://hyperevmscan.io")
  | Abstract => some ("https://api.etherscan.io/v2/api?chainid=2741", "https://abscan.org")
  | AbstractTestnet => some ("https://api.etherscan.io/v2/api?chainid=11124", "https://sepolia.abscan.org")
  | Corn => some ("https://api.routescan.io/v2/network/mainnet/evm/21000000/etherscan/api", "https://cornscan.io")
  | CornTestnet => some ("https://api.routescan.io/v2/network/testnet/evm/21000001/etherscan/api", "https://testnet.cornscan.io")
  | Sophon => some ("https://api.etherscan.io/v2/api?chainid=50104", "https://sophscan.xyz")
  | SophonTestnet => some ("https://api.etherscan.io/v2/api?chainid=531050104", "https://testnet.sophscan.xyz")
  | Lens => some ("https://explorer-api.lens.xyz", "https://explorer.lens.xyz")
  | LensTestnet => some ("https://block-explorer-api.staging.lens.zksync.dev", "https://explorer.testnet.lens.xyz")
  | Katana => some ("https://api.etherscan.io/v2/api?chainid=747474", "https://katanascan.com")
  | Lisk => some ("https://blockscout.lisk.com/api", "https://blockscout.lisk.com")
  | Fuse => some ("https://explorer.fuse.io/api", "https://explorer.fuse.io")
  | Injective => some ("https://blockscout-api.injective.network/api", "https://blockscout.injective.network")
  | InjectiveTestnet => some ("https://testnet.blockscout-api.injective.network/api", "https://testnet.blockscout.injective.network")
  | FluentDevnet => some ("https://blockscout.dev.gblend.xyz/api", "https://blockscout.dev.gblend.xyz")
  | FluentTestnet => some ("https://testnet.fluentscan.xyz/api", "https://testnet.fluentscan.xyz")
  | MemeCore => some ("https://api.etherscan.io/v2/api?chainid=4352", "https://memecorescan.io")
  | Formicarium => some ("https://api.etherscan.io/v2/api?chainid=43521", "https://formicarium.memecorescan.io")
  | Insectarium => some ("https://insectarium.blockscout.memecore.com/api", "https://insectarium.blockscout.memecore.com")
  | SkaleBase => some ("https://skale-base-explorer.skalenodes.com/api", "https://skale-base-explorer.skalenodes.com")
  | SkaleBaseTestnet => some ("https://base-sepolia-testnet-explorer.skalenodes.com/api", "https://base-sepolia-testnet-explorer.skalenodes.com")
  | AcalaTestnet
  | AnvilHardhat
  | ArbitrumGoerli
  | ArbitrumTestnet
  | AutonomysNovaTestnet
  | BaseGoerli
  | Canto
  | CantoTestnet
  | CronosTestnet
  | Dev
  | Evmos
  | EvmosTestnet
  | Fantom
  | FantomTestnet
  | FilecoinMainnet
  | Goerli
  | Iotex
  | KaruraTestnet
  | Koi
  | Kovan
  | LineaGoerli
  | MoonbeamDev
  | Morden
  | Oasis
  | OptimismGoerli
  | OptimismKovan
  | Pgn
  | PgnSepolia
  | Poa
  | Rinkeby
  | Ropsten
  | Sokol
  | Treasure
  | TreasureTopaz
  | Cannon
  | PolkadotTestnet => none

/-- ASCII lowercasing of a string: `make_ascii_lowercase` of the Rust
standard library (and `str::to_lowercase`, which agrees with it on the ASCII
chain names used below). -/
def asciiLower (s : String) : String :=
  ⟨s.data.map Char.toLower⟩

/-- The `DNS_PREFIX` constant of `NamedChain::public_dns_network_protocol`
(and of `Chain::public_dns_network_protocol`, which repeats it verbatim). -/
def DNS_BASE : String :=
  "enrtree://AKA3AM6LPBYEUDMVNU3BSVQJ5AD45Y7YPOHJLEF6W26QOE4VTUDPE@"

/-- `NamedChain::public_dns_network_protocol` of `src/named.rs`.  The source
builds the string by pushing `DNS_PREFIX`, `"all."` and `self.as_ref()` and
then ASCII-lowercasing the just-pushed chain name in place; since the names
are ASCII this equals appending `(as_str v).toLower`. -/
def public_dns_network_protocol (v : NamedChain) : Option String :=
  if v = Mainnet ∨ v = Goerli ∨ v = Sepolia ∨ v = Ropsten ∨ v = Rinkeby ∨
      v = Holesky ∨ v = Hoodi then
    some (DNS_BASE ++ "all." ++ asciiLower (as_str v) ++ ".ethdisco.net")
  else
    none

end NamedChain

/-- The `ChainKind` enum of `src/chain.rs`: a known chain or a raw EIP-155
chain ID.  `Id` carries a `u64`, modelled as `Nat`. -/
inductive ChainKind where
  | Named : NamedChain → ChainKind
  | Id : Nat → ChainKind
deriving DecidableEq

/-- The `Chain` newtype of `src/chain.rs` wrapping a `ChainKind`.  Rust
derives `PartialEq`/`Eq`/`Hash` structurally on the wrapped `ChainKind`;
the derived `DecidableEq` here models that structural equality. -/
structure Chain where
  kind : ChainKind
deriving DecidableEq

namespace Chain

/-- `Chain::from_named`. -/
def from_named (named : NamedChain) : Chain :=
  ⟨ChainKind.Named named⟩

/-- `Chain::from_id_unchecked`: wraps the raw ID without promotion. -/
def from_id_unchecked (id : Nat) : Chain :=
  ⟨ChainKind.Id id⟩

/-- `Chain::from_id`: promotes the ID to a named chain when
`NamedChain::try_from` succeeds. -/
def from_id (id : Nat) : Chain :=
  match NamedChain.tryFromU64 id with
  | some named => from_named named
  | none => from_id_unchecked id

/-- `Chain::id`: the resolved numeric chain ID. -/
def id (c : Chain) : Nat :=
  match c.kind with
  | ChainKind.Named named => named.toId
  | ChainKind.Id i => i

/-- `Chain::named`: `Some` for `Named`, `None` for `Id` (no re-check of the
raw value against the known discriminants). -/
def named (c : Chain) : Option NamedChain :=
  match c.kind with
  | ChainKind.Named n => some n
  | ChainKind.Id _ => none

/-- `TryFrom<Chain> for NamedChain` of `src/chain.rs`: a `Named` chain yields
its variant, an `Id` chain is re-checked against the known discriminants. -/
def try_into_named (c : Chain) : Option NamedChain :=
  match c.kind with
  | ChainKind.Named n => some n
  | ChainKind.Id i => NamedChain.tryFromU64 i

end Chain

/-- Models `str::parse::<u64>` of the Rust standard library: an optional
leading `+` sign followed by one or more ASCII decimal digits, whose value
must fit in 64 bits; anything else (empty input, other characters, a `-`
sign, overflow) is an error. -/
def parseU64 (s : String) : Option Nat :=
  let ds : List Char := if s.data.head? = some '+' then s.data.tail else s.data
  if ds ≠ [] ∧ ds.all (fun c => c.isDigit) then
    let n : Nat := ds.foldl (fun acc c => acc * 10 + (c.toNat - 48)) 0
    if n < 2 ^ 64 then some n else none
  else
    none

/-- `FromStr for Chain` of `src/chain.rs`: first try `NamedChain::from_str`,
otherwise parse the input as a `u64` and promote it with `Chain::from_id`. -/
def Chain.from_str (s : String) : Option Chain :=
  match NamedChain.from_str s with
  | some named => some (Chain.from_named named)
  | none => (parseU64 s).map Chain.from_id

/-- `Chain::public_dns_network_protocol` of `src/chain.rs`: converts the
chain to a named chain via `TryFrom<Chain>` and formats
`"{DNS_PREFIX}all.{}.ethdisco.net"` with the lowercased name, for its own
(shorter) allow-list of variants. -/
def Chain.public_dns_network_protocol (c : Chain) : Option String :=
  match c.try_into_named with
  | none => none
  | some named =>
    if named = NamedChain.Mainnet ∨ named = NamedChain.Goerli ∨
        named = NamedChain.Sepolia ∨ named = NamedChain.Ropsten ∨
        named = NamedChain.Rinkeby then
      some (NamedChain.DNS_BASE ++ "all." ++ NamedChain.asciiLower (NamedChain.as_str named) ++ ".ethdisco.net")
    else
      none

/-- Whether a string's last character is the path separator `/`. -/
def endsWithSlash (s : String) : Bool :=
  s.data.getLast? == some '/'

/-! ### Helper lemmas -/

/-- Every variant occurs in `variants`. -/
theorem mem_variants : ∀ v : NamedChain, v ∈ NamedChain.variants := by
  intro v; cases v <;> decide

/-- The 175 discriminants are pairwise distinct. -/
theorem toId_nodup : (NamedChain.variants.map NamedChain.toId).Nodup := by decide

/-- The discriminant map is injective. -/
theorem toId_injective {v w : NamedChain} (h : v.toId = w.toId) : v = w :=
  List.inj_on_of_nodup_map toId_nodup (mem_variants v) (mem_variants w) h

/-- `TryFrom<u64>` recovers each variant from its own discriminant. -/
theorem tryFromU64_toId : ∀ v : NamedChain, NamedChain.tryFromU64 v.toId = some v := by
  intro v; cases v <;> decide

/-- A successful `TryFrom<u64>` yields a variant with the requested discriminant. -/
theorem tryFromU64_eq_some {id : Nat} {v : NamedChain}
    (h : NamedChain.tryFromU64 id = some v) : v.toId = id := by
  have h' : NamedChain.variants.find? (fun x => x.toId == id) = some v := h
  simpa using List.find?_some h'

/-- `TryFrom<u64>` fails when no variant has the requested discriminant. -/
theorem tryFromU64_eq_none {id : Nat} (h : ∀ v : NamedChain, v.toId ≠ id) :
    NamedChain.tryFromU64 id = none := by
  have : NamedChain.variants.find? (fun x => x.toId == id) = none := by
    refine List.find?_eq_none.mpr ?_
    intro v _ hbeq
    exact h v (by simpa using hbeq)
  exact this

/-- `Chain::from_id` always resolves back to the ID it was built from. -/
theorem from_id_id (id : Nat) : (Chain.from_id id).id = id := by
  unfold Chain.from_id
  cases h : NamedChain.tryFromU64 id with
  | none => rfl
  | some v => exact tryFromU64_eq_some h

/-- Every parse-table entry pairs a variant with its canonical name or one of
its aliases. -/
theorem strum_sound : ∀ p ∈ NamedChain.strumTable,
    p.1 = NamedChain.canonicalName p.2 ∨ p.1 ∈ NamedChain.aliases p.2 := by decide

/-- The canonical name and every alias of every variant occur in the parse
table, keyed to that variant. -/
theorem strum_complete : ∀ v : NamedChain,
    ∀ s ∈ NamedChain.canonicalName v :: NamedChain.aliases v,
      (s, v) ∈ NamedChain.strumTable := by
  intro v; cases v <;> decide

/-- `NamedChain::from_str` succeeds exactly on canonical names and aliases. -/
theorem namedFromStr_isSome_iff (s : String) :
    (NamedChain.from_str s).isSome = true ↔
      ∃ v : NamedChain, s = NamedChain.canonicalName v ∨ s ∈ NamedChain.aliases v := by
  constructor
  · intro h
    unfold NamedChain.from_str at h
    cases hf : NamedChain.strumTable.find? (fun p => p.1 == s) with
    | none => rw [hf] at h; simp at h
    | some p =>
      have hmem := List.mem_of_find?_eq_some hf
      have hkey : p.1 = s := by simpa using List.find?_some hf
      rcases strum_sound p hmem with hc | ha
      · exact ⟨p.2, Or.inl (hkey ▸ hc)⟩
      · exact ⟨p.2, Or.inr (hkey ▸ ha)⟩
  · rintro ⟨v, hv⟩
    unfold NamedChain.from_str
    cases hf : NamedChain.strumTable.find? (fun p => p.1 == s) with
    | some p => simp
    | none =>
      exfalso
      have hnone := List.find?_eq_none.mp hf
      have hsv : (s, v) ∈ NamedChain.strumTable := by
        rcases hv with h | h
        · exact strum_complete v s (by rw [h]; exact List.mem_cons_self _ _)
        · exact strum_complete v s (List.mem_cons_of_mem _ h)
      exact hnone (s, v) hsv (by simp)

/-- `Chain::from_str` succeeds exactly when the named lookup or the numeric
parse succeeds. -/
theorem chainFromStr_isSome (s : String) :
    (Chain.from_str s).isSome = true ↔
      ((NamedChain.from_str s).isSome = true ∨ (parseU64 s).isSome = true) := by
  unfold Chain.from_str
  cases NamedChain.from_str s with
  | some n => simp
  | none =>
    cases parseU64 s with
    | some m => simp
    | none => simp

/-- Neither URL returned by `etherscan_urls` ends with `/`. -/
theorem etherscan_urls_no_slash : ∀ v : NamedChain,
    (NamedChain.etherscan_urls v).all
      (fun p => !endsWithSlash p.1 && !endsWithSlash p.2) = true := by
  intro v; cases v <;> decide

/-! ### Claim theorems -/

/-- C1: for every 64-bit chain ID, `Chain::from_id` is total: it returns the
`Named` chain wrapping `v` whenever the ID is the discriminant of a variant
`v`, and the raw `Id` chain carrying the ID otherwise. -/
theorem C1_from_id_total (id : Nat) (_hid : id < 2 ^ 64) :
    (∀ v : NamedChain, v.toId = id → Chain.from_id id = Chain.from_named v) ∧
    ((∀ v : NamedChain, v.toId ≠ id) → Chain.from_id id = Chain.from_id_unchecked id) := by
  constructor
  · intro v hv
    unfold Chain.from_id
    rw [← hv, tryFromU64_toId v]
  · intro h
    unfold Chain.from_id
    rw [tryFromU64_eq_none h]

/-- Witness for C1 at IDs 1 (a known discriminant) and 1234 (unknown). -/
theorem C1_witness :
    Chain.from_id 1 = Chain.from_named NamedChain.Mainnet ∧
    Chain.from_id 1234 = Chain.from_id_unchecked 1234 :=
  ⟨(C1_from_id_total 1 (by norm_num)).1 NamedChain.Mainnet (by decide),
   (C1_from_id_total 1234 (by norm_num)).2 (by intro v; cases v <;> decide)⟩

/-- C2 counterexample: `Named Mainnet` and the unchecked `Id 1` chain resolve
to the same numeric ID but compare unequal, refuting "equal iff resolved
numeric IDs are equal". -/
theorem C2_counterexample :
    (Chain.from_named NamedChain.Mainnet).id = (Chain.from_id_unchecked 1).id ∧
    Chain.from_named NamedChain.Mainnet ≠ Chain.from_id_unchecked 1 := by decide

/-- C2 (amended): chain equality implies equal resolved IDs, and among chains
built by the promoting constructor `from_id` equality holds exactly on equal
IDs; but equality is structural, so a `Named` chain never equals the
unchecked `Id` chain carrying its discriminant. -/
theorem C2_equality_amended :
    (∀ x y : Chain, x = y → x.id = y.id) ∧
    (∀ a b : Nat, Chain.from_id a = Chain.from_id b ↔ a = b) ∧
    (∀ v : NamedChain, Chain.from_named v ≠ Chain.from_id_unchecked v.toId) := by
  refine ⟨fun x y h => by rw [h], fun a b => ?_, fun v h => ?_⟩
  · constructor
    · intro h
      have h2 := congrArg Chain.id h
      rw [from_id_id, from_id_id] at h2
      exact h2
    · intro h; rw [h]
  · exact ChainKind.noConfusion (congrArg Chain.kind h)

/-- Witness for C2 (amended) at concrete chains. -/
theorem C2_witness :
    (Chain.from_id 5).id = (Chain.from_id 5).id ∧
    (Chain.from_id 5 = Chain.from_id 7 ↔ (5 : Nat) = 7) ∧
    Chain.from_named NamedChain.Goerli ≠
      Chain.from_id_unchecked (NamedChain.toId NamedChain.Goerli) :=
  ⟨C2_equality_amended.1 (Chain.from_id 5) (Chain.from_id 5) rfl,
   C2_equality_amended.2.1 5 7,
   C2_equality_amended.2.2 NamedChain.Goerli⟩

/-- C3 counterexample: the raw value 1 is the discriminant of `Mainnet`, yet
`named()` on the unchecked `Id 1` chain returns `none` rather than re-checking
it, refuting the claimed re-check. -/
theorem C3_counterexample :
    NamedChain.toId NamedChain.Mainnet = 1 ∧
    (Chain.from_id_unchecked 1).named = none := by decide

/-- C3 (amended): `named()` returns `some v` for every `Named` chain and
`none` for every `Id` chain, even when the stored value matches a known
discriminant. -/
theorem C3_named_amended :
    (∀ v : NamedChain, (Chain.from_named v).named = some v) ∧
    (∀ id : Nat, (Chain.from_id_unchecked id).named = none) :=
  ⟨fun _ => rfl, fun _ => rfl⟩

/-- C4: `Chain::from_str` succeeds exactly when the text case-sensitively
matches a canonical name or declared alias of some variant, or parses as a
base-10 unsigned 64-bit integer; in the numeric case it delegates to the
promoting constructor `Chain::from_id`. -/
theorem C4_from_str_characterization (s : String) :
    ((Chain.from_str s).isSome = true ↔
      ((∃ v : NamedChain, s = NamedChain.canonicalName v ∨ s ∈ NamedChain.aliases v) ∨
        (parseU64 s).isSome = true)) ∧
    (∀ n : Nat, NamedChain.from_str s = none → parseU64 s = some n →
      Chain.from_str s = some (Chain.from_id n)) := by
  constructor
  · rw [chainFromStr_isSome, namedFromStr_isSome_iff]
  · intro n h1 h2
    unfold Chain.from_str
    rw [h1, h2]
    rfl

/-- Witness for C4 at the numeric text "1234". -/
theorem C4_witness :
    NamedChain.from_str "1234" = none ∧ parseU64 "1234" = some 1234 ∧
    Chain.from_str "1234" = some (Chain.from_id 1234) :=
  ⟨by decide, by decide,
   (C4_from_str_characterization "1234").2 1234 (by decide) (by decide)⟩

/-- C5: parsing any variant's canonical display string, or any of its
declared aliases, yields the `Named` chain wrapping that variant. -/
theorem C5_parse_round_trip (v : NamedChain) :
    Chain.from_str (NamedChain.canonicalName v) = some (Chain.from_named v) ∧
    ∀ a ∈ NamedChain.aliases v, Chain.from_str a = some (Chain.from_named v) := by
  cases v <;> exact ⟨by decide, by decide⟩

/-- Witness for C5: the canonical name "mainnet", the alias "ethlive" of
`Mainnet`, and the alias "bnb-smart-chain" of `BinanceSmartChain`. -/
theorem C5_witness :
    Chain.from_str "mainnet" = some (Chain.from_named NamedChain.Mainnet) ∧
    Chain.from_str "ethlive" = some (Chain.from_named NamedChain.Mainnet) ∧
    Chain.from_str "bnb-smart-chain" = some (Chain.from_named NamedChain.BinanceSmartChain) :=
  ⟨(C5_parse_round_trip NamedChain.Mainnet).1,
   (C5_parse_round_trip NamedChain.Mainnet).2 "ethlive" (by decide),
   (C5_parse_round_trip NamedChain.BinanceSmartChain).2 "bnb-smart-chain" (by decide)⟩

/-- C6: resolving a chain built by `Chain::from_id` recovers the ID it was
constructed from. -/
theorem C6_from_id_round_trip (id : Nat) (_hid : id < 2 ^ 64) :
    (Chain.from_id id).id = id :=
  from_id_id id

/-- Witness for C6 at ID 1234. -/
theorem C6_witness : (Chain.from_id 1234).id = 1234 :=
  C6_from_id_round_trip 1234 (by norm_num)

/-- C7 counterexample: the fixed enrtree prefix constant is 64 characters
long, not 66 as claimed. -/
theorem C7_counterexample :
    NamedChain.DNS_BASE.length = 64 ∧ ¬ NamedChain.DNS_BASE.length = 66 := by decide

/-- C7 (amended): `NamedChain::public_dns_network_protocol` returns `some`
exactly on the allow-list {Mainnet, Goerli, Sepolia, Ropsten, Rinkeby,
Holesky, Hoodi}, and the result is the fixed 64-character enrtree prefix
followed by "all.", the lowercase canonical name, and ".ethdisco.net". -/
theorem C7_dns_amended :
    NamedChain.DNS_BASE.length = 64 ∧
    (∀ v : NamedChain, (NamedChain.public_dns_network_protocol v).isSome = true ↔
        v ∈ [NamedChain.Mainnet, NamedChain.Goerli, NamedChain.Sepolia, NamedChain.Ropsten,
             NamedChain.Rinkeby, NamedChain.Holesky, NamedChain.Hoodi]) ∧
    NamedChain.public_dns_network_protocol NamedChain.Mainnet =
      some "enrtree://AKA3AM6LPBYEUDMVNU3BSVQJ5AD45Y7YPOHJLEF6W26QOE4VTUDPE@all.mainnet.ethdisco.net" ∧
    NamedChain.public_dns_network_protocol NamedChain.Goerli =
      some "enrtree://AKA3AM6LPBYEUDMVNU3BSVQJ5AD45Y7YPOHJLEF6W26QOE4VTUDPE@all.goerli.ethdisco.net" ∧
    NamedChain.public_dns_network_protocol NamedChain.Sepolia =
      some "enrtree://AKA3AM6LPBYEUDMVNU3BSVQJ5AD45Y7YPOHJLEF6W26QOE4VTUDPE@all.sepolia.ethdisco.net" ∧
    NamedChain.public_dns_network_protocol NamedChain.Ropsten =
      some "enrtree://AKA3AM6LPBYEUDMVNU3BSVQJ5AD45Y7YPOHJLEF6W26QOE4VTUDPE@all.ropsten.ethdisco.net" ∧
    NamedChain.public_dns_network_protocol NamedChain.Rinkeby =
      some "enrtree://AKA3AM6LPBYEUDMVNU3BSVQJ5AD45Y7YPOHJLEF6W26QOE4VTUDPE@all.rinkeby.ethdisco.net" ∧
    NamedChain.public_dns_network_protocol NamedChain.Holesky =
      some "enrtree://AKA3AM6LPBYEUDMVNU3BSVQJ5AD45Y7YPOHJLEF6W26QOE4VTUDPE@all.holesky.ethdisco.net" ∧
    NamedChain.public_dns_network_protocol NamedChain.Hoodi =
      some "enrtree://AKA3AM6LPBYEUDMVNU3BSVQJ5AD45Y7YPOHJLEF6W26QOE4VTUDPE@all.hoodi.ethdisco.net" := by
  refine ⟨by decide, ?_, by decide, by decide, by decide, by decide, by decide,
    by decide, by decide⟩
  intro v; cases v <;> decide

/-- C8: whenever `etherscan_urls` returns a pair, neither the API URL nor the
browser URL ends with the path separator `/`. -/
theorem C8_no_trailing_separator (v : NamedChain) (api browser : String)
    (h : NamedChain.etherscan_urls v = some (api, browser)) :
    endsWithSlash api = false ∧ endsWithSlash browser = false := by
  have hall := etherscan_urls_no_slash v
  rw [h] at hall
  simp only [Option.all, Bool.and_eq_true, Bool.not_eq_true'] at hall
  exact hall

/-- Witness for C8 at `Mainnet`. -/
theorem C8_witness :
    NamedChain.etherscan_urls NamedChain.Mainnet =
      some ("https://api.etherscan.io/v2/api?chainid=1", "https://etherscan.io") ∧
    endsWithSlash "https://api.etherscan.io/v2/api?chainid=1" = false ∧
    endsWithSlash "https://etherscan.io" = false :=
  ⟨rfl,
   (C8_no_trailing_separator NamedChain.Mainnet _ _ rfl).1,
   (C8_no_trailing_separator NamedChain.Mainnet _ _ rfl).2⟩

/-- C9: the variant-to-discriminant map is injective. -/
theorem C9_discriminants_injective (v w : NamedChain) (h : v.toId = w.toId) : v = w :=
  toId_injective h

/-- Witness for C9 at `Sepolia`. -/
theorem C9_witness : NamedChain.Sepolia = NamedChain.Sepolia :=
  C9_discriminants_injective NamedChain.Sepolia NamedChain.Sepolia rfl

/-- C10 counterexample: at `Holesky` the `Chain`-level DNS method returns
`none` while the `NamedChain`-level method returns `some`. -/
theorem C10_counterexample :
    Chain.public_dns_network_protocol (Chain.from_named NamedChain.Holesky) = none ∧
    NamedChain.public_dns_network_protocol NamedChain.Holesky =
      some "enrtree://AKA3AM6LPBYEUDMVNU3BSVQJ5AD45Y7YPOHJLEF6W26QOE4VTUDPE@all.holesky.ethdisco.net" := by
  decide

/-- C10 (amended): the `Chain`-level and `NamedChain`-level DNS discovery
seeds agree exactly on the variants other than `Holesky` and `Hoodi`, whose
entries are present only in the `NamedChain`-level allow-list. -/
theorem C10_dns_agreement_amended (v : NamedChain) :
    Chain.public_dns_network_protocol (Chain.from_named v) =
      NamedChain.public_dns_network_protocol v ↔
      (v ≠ NamedChain.Holesky ∧ v ≠ NamedChain.Hoodi) := by
  cases v <;> decide

end AlloyChains
